import Mathlib

/-!
Shallow embedding of the influxdb2 client excerpt (src/api/label.rs and
src/api/task.rs) and proofs about its request/response handling.

Each Rust operation is an `async fn` that (1) builds a URL, (2) optionally
serializes a body, (3) sends the request, (4) branches on the response status,
and (5) deserializes or captures the body text.  The embedding turns each
operation into a pure Lean function parameterized by the outcomes of the
external effects it invokes: the body serializer (`serde_json::to_string`
returns a `Result`), the network send (`reqwest` send returns a `Result` of a
response), and the payload JSON decoder.  A response carries its status code
and the outcome of reading its body as text (`response.text()` can itself
fail).  The control flow of each Lean function mirrors the Rust source
line by line.
-/

namespace Influxdb2

/-- HTTP status code, as carried by `reqwest::StatusCode`. -/
abbrev StatusCode := Nat

/-- Embedding of `reqwest::StatusCode::is_success`: the 2xx class. -/
def StatusCode.is_success (s : StatusCode) : Bool :=
  decide (200 ≤ s) && decide (s < 300)

/-- A received HTTP response: its status code and the outcome of reading its
body as text (`response.text()` / the byte-reading half of `response.json()`
can fail with a reqwest error, modelled as an error string). -/
structure HttpResponse where
  status : StatusCode
  text : Except String String
  deriving Repr

/-- Modelled from the spec: the typed error `RequestError` is defined in the
crate root, outside the excerpt.  Its variants are determined by the snafu
context selectors used in src: `HttpSnafu \x7b status, text \x7d`,
`ReqwestProcessingSnafu` (wrapping a reqwest error), and `SerializingSnafu`
(wrapping a serde_json error).  The wrapped foreign errors are modelled as
message strings. -/
inductive RequestError where
  | http (status : StatusCode) (text : String)
  | reqwestProcessing (msg : String)
  | serializing (msg : String)
  deriving Repr, DecidableEq

/-- The client configuration used by URL construction (`self.url`). -/
structure Client where
  url : String
  deriving Repr, DecidableEq

/-- Embedding of `response.json::<T>()`: read the body bytes (which can fail
with a reqwest error) and then parse them with the payload decoder; both
failures surface as one reqwest error. -/
def responseJson (parse : String → Except String α) (r : HttpResponse) :
    Except String α :=
  match r.text with
  | .error e => .error e
  | .ok s => parse s

/-- Modelled from the spec: a label is an identifier, an owning organization
identifier, a name, and an optional map of string properties.  The concrete
shape lives in `crate::models`, outside the excerpt; the claims only need the
payload types to be inhabited, since the JSON decoders are parameters. -/
structure Label where
  id : String
  orgID : String
  name : String
  properties : Option (List (String × String))
  deriving Repr, DecidableEq

/-- Modelled from the spec: response payload of the single-label endpoints. -/
structure LabelResponse where
  label : Label
  deriving Repr, DecidableEq

/-- Modelled from the spec: response payload of the list-labels endpoint. -/
structure LabelsResponse where
  labels : List Label
  deriving Repr, DecidableEq

/-- Modelled from the spec: a task record; only inhabitation matters here. -/
structure Task where
  id : String
  orgID : String
  flux : String
  deriving Repr, DecidableEq

/-- Modelled from the spec: response payload of the list-tasks endpoint. -/
structure Tasks where
  tasks : List Task
  deriving Repr, DecidableEq

/-- Modelled from the spec: `TaskStatusType` lives in `crate::models`; the
spec says a task status is one of a small enumerated set, "inactive" or
"active". -/
inductive TaskStatusType where
  | active
  | inactive
  deriving Repr, DecidableEq

/-- Serde string rendering of a `TaskStatusType` value. -/
def TaskStatusType.render : TaskStatusType → String
  | .active => "active"
  | .inactive => "inactive"

/-- The body of `LabelCreateRequest` as constructed in `create_label`
(fields `org_id`, `name`, `properties` are visible at the construction
site in src/api/label.rs). -/
structure LabelCreateRequest where
  org_id : String
  name : String
  properties : Option (List (String × String))
  deriving Repr, DecidableEq

/-- The body of `LabelUpdate` as constructed in `update_label` (fields
`name` and `properties`, both optional). -/
structure LabelUpdate where
  name : Option String
  properties : Option (List (String × String))
  deriving Repr, DecidableEq

/-- Query pairs attached in `get_labels`: `orgID=id` when an org id is
given (`request.query(&[("orgID", id)])`), nothing otherwise. -/
def labelsQuery : Option String → List (String × String)
  | some id => [("orgID", id)]
  | none => []

/-- Embedding of `get_labels` (src/api/label.rs lines 20-39): GET
`\x7bself.url\x7d/api/v2/labels`, with query `orgID=id` when an org id is
given; 200 deserializes `LabelsResponse`, any other status reads the body
text and fails with an HTTP error.  `send` is the network: URL and query
pairs in, response (or transport error) out. -/
def get_labels (c : Client) (org_id : Option String)
    (parse : String → Except String LabelsResponse)
    (send : String → List (String × String) → Except String HttpResponse) :
    Except RequestError LabelsResponse :=
  let labels_url := c.url ++ "/api/v2/labels"
  match send labels_url (labelsQuery org_id) with
  | .error e => .error (.reqwestProcessing e)
  | .ok response =>
    if response.status = 200 then
      match responseJson parse response with
      | .error e => .error (.reqwestProcessing e)
      | .ok v => .ok v
    else
      match response.text with
      | .error e => .error (.reqwestProcessing e)
      | .ok text => .error (.http response.status text)

/-- Embedding of `create_label` (src/api/label.rs lines 62-90): POST
`\x7bself.url\x7d/api/v2/labels` with the serialized `LabelCreateRequest`
body; 201 deserializes `LabelResponse`, any other status fails with an HTTP
error.  `ser` is the outcome of `serde_json::to_string` on the body;
`send` takes the URL and the body string. -/
def create_label (c : Client) (org_id name : String)
    (properties : Option (List (String × String)))
    (ser : LabelCreateRequest → Except String String)
    (send : String → String → Except String HttpResponse)
    (parse : String → Except String LabelResponse) :
    Except RequestError LabelResponse :=
  let create_label_url := c.url ++ "/api/v2/labels"
  let body : LabelCreateRequest := ⟨org_id, name, properties⟩
  match ser body with
  | .error e => .error (.serializing e)
  | .ok bodyStr =>
    match send create_label_url bodyStr with
    | .error e => .error (.reqwestProcessing e)
    | .ok response =>
      if response.status = 201 then
        match responseJson parse response with
        | .error e => .error (.reqwestProcessing e)
        | .ok v => .ok v
      else
        match response.text with
        | .error e => .error (.reqwestProcessing e)
        | .ok text => .error (.http response.status text)

/-- Embedding of `update_label` (src/api/label.rs lines 93-117): PATCH
`\x7bself.url\x7d/api/v2/labels/\x7blabel_id\x7d` with the serialized
`LabelUpdate` body; 200 deserializes `LabelResponse`, any other status fails
with an HTTP error. -/
def update_label (c : Client) (name : Option String)
    (properties : Option (List (String × String))) (label_id : String)
    (ser : LabelUpdate → Except String String)
    (send : String → String → Except String HttpResponse)
    (parse : String → Except String LabelResponse) :
    Except RequestError LabelResponse :=
  let update_label_url := c.url ++ "/api/v2/labels/" ++ label_id
  let body : LabelUpdate := ⟨name, properties⟩
  match ser body with
  | .error e => .error (.serializing e)
  | .ok bodyStr =>
    match send update_label_url bodyStr with
    | .error e => .error (.reqwestProcessing e)
    | .ok response =>
      if response.status = 200 then
        match responseJson parse response with
        | .error e => .error (.reqwestProcessing e)
        | .ok v => .ok v
      else
        match response.text with
        | .error e => .error (.reqwestProcessing e)
        | .ok text => .error (.http response.status text)

/-- Embedding of `delete_label` (src/api/label.rs lines 120-134): DELETE
`\x7bself.url\x7d/api/v2/labels/\x7blabel_id\x7d`; 204 returns unit, any
other status reads the body text and fails with an HTTP error. -/
def delete_label (c : Client) (label_id : String)
    (send : String → Except String HttpResponse) :
    Except RequestError Unit :=
  let delete_label_url := c.url ++ "/api/v2/labels/" ++ label_id
  match send delete_label_url with
  | .error e => .error (.reqwestProcessing e)
  | .ok response =>
    if response.status = 204 then .ok ()
    else
      match response.text with
      | .error e => .error (.reqwestProcessing e)
      | .ok text => .error (.http response.status text)

/-- Lowercase hex digit, as used by serde_json for `\u00XX` escapes. -/
def hexDigitLower (n : Nat) : Char :=
  if n < 10 then Char.ofNat (48 + n) else Char.ofNat (87 + n)

/-- Uppercase hex digit, as used by percent-encoding for `%XX`. -/
def hexDigitUpper (n : Nat) : Char :=
  if n < 10 then Char.ofNat (48 + n) else Char.ofNat (55 + n)

/-- Two lowercase hex digits of a byte value. -/
def hex2Lower (n : Nat) : String :=
  String.mk [hexDigitLower (n / 16 % 16), hexDigitLower (n % 16)]

/-- Two uppercase hex digits of a byte value. -/
def hex2Upper (n : Nat) : String :=
  String.mk [hexDigitUpper (n / 16 % 16), hexDigitUpper (n % 16)]

/-- Serde_json string escaping for one character: `"` and `\` get a
backslash, the named control escapes are used for backspace, tab, newline,
form feed and carriage return, other control characters become `\u00XX`,
everything else is emitted verbatim. -/
def jsonEscapeChar (c : Char) : String :=
  if c = '\x22' then "\\\""
  else if c = '\\' then "\\\\"
  else if c = '\x08' then "\\b"
  else if c = '\x09' then "\\t"
  else if c = '\x0a' then "\\n"
  else if c = '\x0c' then "\\f"
  else if c = '\x0d' then "\\r"
  else if c.toNat < 32 then "\\u00" ++ hex2Lower c.toNat
  else String.singleton c

/-- Serde_json rendering of a string value: quoted and escaped. -/
def jsonString (s : String) : String :=
  "\x22" ++ String.join (s.data.map jsonEscapeChar) ++ "\x22"

/-- Render a JSON object from already-rendered (key, value-text) fields, in
field order, as serde_json does for a struct. -/
def renderObj (fields : List (String × String)) : String :=
  "\x7b" ++
    String.intercalate "," (fields.map fun kv => jsonString kv.1 ++ ":" ++ kv.2) ++
  "\x7d"

/-- One serialized field of an optional value: absent fields contribute
nothing (serde `skip_serializing_if = "Option::is_none"`), present fields
contribute one (key, rendered value) pair. -/
def optField (k : String) : Option String → List (String × String)
  | none => []
  | some v => [(k, v)]

/-- Serde_json rendering of a string-to-string map as a JSON object. -/
def renderPropsObj (ps : List (String × String)) : String :=
  renderObj (ps.map fun p => (p.1, jsonString p.2))

/-- Modelled from the spec: the serde attributes of `LabelUpdate` live in
`crate::models`, outside the excerpt.  The spec (§4.2 step 3) mandates
omitting absent optional fields rather than emitting nulls, and the in-src
tests `update_label` / `update_label_opt` pin the bodies
`\x7b"name":...,"properties":...\x7d` and `\x7b\x7d`.  Fields in
declaration order: `name`, then `properties`. -/
def labelUpdateFields (u : LabelUpdate) : List (String × String) :=
  optField "name" (u.name.map jsonString) ++
  optField "properties" (u.properties.map renderPropsObj)

/-- JSON body produced by `serde_json::to_string` on a `LabelUpdate`. -/
def labelUpdateToJson (u : LabelUpdate) : String :=
  renderObj (labelUpdateFields u)

/-- Embedding of `CreateTaskRequest` (src/api/task.rs lines 108-125):
`flux` is mandatory; `description`, `org`, `org_id` and `status` are
optional with `skip_serializing_if = "Option::is_none"`; `org_id` is
renamed to `orgID`; `rename_all = "camelCase"` leaves the remaining
single-word field names unchanged. -/
structure CreateTaskRequest where
  flux : String
  description : Option String
  org : Option String
  org_id : Option String
  status : Option TaskStatusType
  deriving Repr, DecidableEq

/-- Embedding of `CreateTaskRequest::new`: only `flux` is set. -/
def CreateTaskRequest.new (flux : String) : CreateTaskRequest :=
  ⟨flux, none, none, none, none⟩

/-- Serialized fields of a `CreateTaskRequest`, in declaration order, with
absent optional fields omitted and `org_id` under the external key
`orgID`. -/
def createTaskRequestFields (r : CreateTaskRequest) : List (String × String) :=
  [("flux", jsonString r.flux)] ++
  optField "description" (r.description.map jsonString) ++
  optField "org" (r.org.map jsonString) ++
  optField "orgID" (r.org_id.map jsonString) ++
  optField "status" (r.status.map fun st => jsonString st.render)

/-- JSON body produced by `serde_json::to_string` on a `CreateTaskRequest`. -/
def createTaskRequestToJson (r : CreateTaskRequest) : String :=
  renderObj (createTaskRequestFields r)

/-- Characters that percent-encoding leaves unescaped (the RFC 3986
unreserved set, which all serde_qs keys and plain values fall in). -/
def qsUnreserved (c : Char) : Bool :=
  (c.isAlpha || c.isDigit) || c = '-' || c = '_' || c = '.' || c = '~'

/-- UTF-8 bytes of a code point, for percent-encoding multi-byte
characters. -/
def utf8Bytes (n : Nat) : List Nat :=
  if n < 128 then [n]
  else if n < 2048 then [192 + n / 64, 128 + n % 64]
  else if n < 65536 then [224 + n / 4096, 128 + n / 64 % 64, 128 + n % 64]
  else [240 + n / 262144, 128 + n / 4096 % 64, 128 + n / 64 % 64, 128 + n % 64]

/-- Percent-encoding of one character, as serde_qs applies to query keys and
values. -/
def qsEscapeChar (c : Char) : String :=
  if qsUnreserved c then String.singleton c
  else String.join ((utf8Bytes c.toNat).map fun b => "%" ++ hex2Upper b)

/-- Percent-encoding of a whole string. -/
def qsEscape (s : String) : String :=
  String.join (s.data.map qsEscapeChar)

/-- Embedding of `ListTasksRequest` (src/api/task.rs lines 85-105): eight
optional filter fields; `org_id` serializes under `orgID` and `type_` under
`type`; `limit` is a `u16`. -/
structure ListTasksRequest where
  after : Option String
  limit : Option Nat
  name : Option String
  org : Option String
  org_id : Option String
  status : Option String
  type_ : Option TaskStatusType
  user : Option String
  deriving Repr, DecidableEq

/-- Query pairs serde_qs produces for a `ListTasksRequest`: one
`key=value` pair per present field, in field declaration order, with
percent-encoded values and the serde renames applied. -/
def listTasksPairs (r : ListTasksRequest) : List (String × String) :=
  optField "after" (r.after.map qsEscape) ++
  optField "limit" (r.limit.map fun n => qsEscape (toString n)) ++
  optField "name" (r.name.map qsEscape) ++
  optField "org" (r.org.map qsEscape) ++
  optField "orgID" (r.org_id.map qsEscape) ++
  optField "status" (r.status.map qsEscape) ++
  optField "type" (r.type_.map fun t => qsEscape t.render) ++
  optField "user" (r.user.map qsEscape)

/-- Render query pairs as `k=v` joined with `&` (keys here are all in the
unreserved set, so their percent-encoding is the identity). -/
def renderQuery (pairs : List (String × String)) : String :=
  String.intercalate "&" (pairs.map fun kv => kv.1 ++ "=" ++ kv.2)

/-- The value shapes the serde_qs top-level serializer receives: a primitive,
or a struct already flattened to its query pairs.  serde_qs fails on
top-level primitives and succeeds on maps and structs. -/
inductive QsVal where
  | prim (v : String)
  | obj (pairs : List (String × String))
  deriving Repr

/-- Embedding of `serde_qs::to_string`: top-level primitives are the error
case; a struct serializes to its rendered query pairs. -/
def qsToStringE : QsVal → Except String String
  | .prim _ => .error "top-level serializer supports only maps and structs"
  | .obj pairs => .ok (renderQuery pairs)

/-- The outcome of `serde_qs::to_string(&request)` for a
`ListTasksRequest`: the struct flattens to its query pairs. -/
def listTasksQsE (r : ListTasksRequest) : Except String String :=
  qsToStringE (.obj (listTasksPairs r))

/-- The query string `list_tasks` unwraps; total because the struct case of
`qsToStringE` always succeeds (`listTasksQsE_ok`). -/
def listTasksQs (r : ListTasksRequest) : String :=
  match listTasksQsE r with
  | .ok s => s
  | .error _ => ""

/-- The keys appearing in the serialized query of a `ListTasksRequest`. -/
def listTasksKeys (r : ListTasksRequest) : List String :=
  (listTasksPairs r).map Prod.fst

/-- A `ListTasksRequest` with every filter absent (the `Default` derive). -/
def noFilters : ListTasksRequest :=
  ⟨none, none, none, none, none, none, none, none⟩

/-- Embedding of the URL match in `list_tasks` (src/api/task.rs lines
16-20): an empty query string yields the bare path, otherwise `?` plus the
query string is appended. -/
def listTasksUrl (c : Client) (r : ListTasksRequest) : String :=
  if listTasksQs r = "" then c.url ++ "/api/v2/tasks"
  else c.url ++ "/api/v2/tasks?" ++ listTasksQs r

/-- Embedding of `list_tasks` (src/api/task.rs lines 12-40): GET the built
URL; a non-success-class status (`!response.status().is_success()`) reads
the body text and fails with an HTTP error; a success-class status
deserializes `Tasks` from the body. -/
def list_tasks (c : Client) (request : ListTasksRequest)
    (parse : String → Except String Tasks)
    (send : String → Except String HttpResponse) :
    Except RequestError Tasks :=
  let url := listTasksUrl c request
  match send url with
  | .error e => .error (.reqwestProcessing e)
  | .ok response =>
    if !response.status.is_success then
      match response.text with
      | .error e => .error (.reqwestProcessing e)
      | .ok text => .error (.http response.status text)
    else
      match responseJson parse response with
      | .error e => .error (.reqwestProcessing e)
      | .ok v => .ok v

/-- Embedding of `create_task` (src/api/task.rs lines 43-65): POST
`\x7bself.url\x7d/api/v2/tasks` with the serialized `CreateTaskRequest`
body; a non-success-class status reads the body text and fails with an HTTP
error; otherwise the unit value is returned without touching the response
body. -/
def create_task (c : Client) (request : CreateTaskRequest)
    (ser : CreateTaskRequest → Except String String)
    (send : String → String → Except String HttpResponse) :
    Except RequestError Unit :=
  let url := c.url ++ "/api/v2/tasks"
  match ser request with
  | .error e => .error (.serializing e)
  | .ok bodyStr =>
    match send url bodyStr with
    | .error e => .error (.reqwestProcessing e)
    | .ok response =>
      if !response.status.is_success then
        match response.text with
        | .error e => .error (.reqwestProcessing e)
        | .ok text => .error (.http response.status text)
      else .ok ()

/-! ## Helper lemmas shared by the claim theorems -/

/-- Key membership in one optional serialized field: the key appears exactly
when it is that field's key and the field is present. -/
theorem optField_keys (k k' : String) (o : Option String) :
    k ∈ (optField k' o).map Prod.fst ↔ k = k' ∧ o.isSome := by
  cases o <;> simp [optField]

/-- Pair membership in one optional serialized field: the pair is there
exactly when its key is the field's key and its value is the field's
value. -/
theorem mem_optField_pair (k k' x : String) (o : Option String) :
    (k, x) ∈ optField k' o ↔ k = k' ∧ o = some x := by
  cases o with
  | none => simp [optField]
  | some v =>
    simp [optField]
    aesop

/-- Every pair contributed by an optional field whose values go through `f`
has a value of the form `f a`. -/
theorem mem_optField_map {α : Type} (k : String) (f : α → String) (o : Option α)
    (kv : String × String) (h : kv ∈ optField k (o.map f)) : ∃ a, kv.2 = f a := by
  cases o with
  | none => simp [optField] at h
  | some a =>
    simp [optField] at h
    exact ⟨a, by rw [h]⟩

/-- A rendered JSON string value always starts with a quote, so it is never
the literal `null`. -/
theorem jsonString_ne_null (s : String) : jsonString s ≠ "null" := by
  intro h
  have h2 := congrArg String.data h
  simp [jsonString, String.data_append] at h2

/-- Every value in the serialized fields of a `CreateTaskRequest` is a
rendered JSON string (in particular never the literal `null`). -/
theorem createTaskRequestFields_value_shape (r : CreateTaskRequest) :
    ∀ kv ∈ createTaskRequestFields r, ∃ s, kv.2 = jsonString s := by
  intro kv hkv
  simp only [createTaskRequestFields, List.mem_append, List.mem_singleton] at hkv
  rcases hkv with ((((h | h) | h) | h) | h)
  · exact ⟨r.flux, by rw [h]⟩
  · exact mem_optField_map "description" jsonString r.description kv h
  · exact mem_optField_map "org" jsonString r.org kv h
  · exact mem_optField_map "orgID" jsonString r.org_id kv h
  · obtain ⟨a, ha⟩ :=
      mem_optField_map "status" (fun st => jsonString st.render) r.status kv h
    exact ⟨a.render, ha⟩

/-! ## Claim theorems -/

/-- C2: `delete_label` returns the unit success value exactly when the
response status is 204 (No Content); any other status produces an error
carrying that status and the response body text. -/
theorem delete_label_204_dichotomy (c : Client) (label_id : String)
    (send : String → Except String HttpResponse)
    (resp : HttpResponse) (t : String)
    (hsend : send (c.url ++ "/api/v2/labels/" ++ label_id) = .ok resp)
    (htext : resp.text = .ok t) :
    (delete_label c label_id send = .ok () ↔ resp.status = 204) ∧
    (resp.status ≠ 204 →
      delete_label c label_id send = .error (.http resp.status t)) := by
  simp only [delete_label, hsend]
  by_cases h : resp.status = 204 <;> simp [h, htext]

/-- Witness for C2: a 404 response with body "not found" makes
`delete_label` fail with exactly that HTTP error. -/
theorem delete_label_204_dichotomy_witness :
    delete_label ⟨"http://s"⟩ "lbl" (fun _ => .ok ⟨404, .ok "not found"⟩) =
      .error (.http 404 "not found") :=
  (delete_label_204_dichotomy ⟨"http://s"⟩ "lbl" _ ⟨404, .ok "not found"⟩
    "not found" rfl rfl).2 (by decide)

/-- C3: `create_label` yields the deserialized `LabelResponse` exactly when
the response status is 201 (Created); any other status yields an HTTP error
exposing that status code and the raw response body text unchanged. -/
theorem create_label_201_exact (c : Client) (org_id name : String)
    (properties : Option (List (String × String)))
    (ser : LabelCreateRequest → Except String String)
    (send : String → String → Except String HttpResponse)
    (parse : String → Except String LabelResponse)
    (b : String) (resp : HttpResponse) (t : String)
    (hser : ser ⟨org_id, name, properties⟩ = .ok b)
    (hsend : send (c.url ++ "/api/v2/labels") b = .ok resp)
    (htext : resp.text = .ok t) :
    (∀ v, resp.status = 201 → parse t = .ok v →
      create_label c org_id name properties ser send parse = .ok v) ∧
    (resp.status ≠ 201 →
      create_label c org_id name properties ser send parse =
        .error (.http resp.status t)) ∧
    (∀ v, create_label c org_id name properties ser send parse = .ok v →
      resp.status = 201 ∧ parse t = .ok v) := by
  simp only [create_label, hser, hsend]
  by_cases h : resp.status = 201
  · cases hp : parse t <;> simp [h, responseJson, htext, hp]
  · simp [h, htext]

/-- Witness for C3: a 404 response with body "missing" makes `create_label`
fail with exactly that HTTP error. -/
theorem create_label_201_exact_witness :
    create_label ⟨"http://s"⟩ "org" "nm" none (fun _ => .ok "body")
      (fun _ _ => .ok ⟨404, .ok "missing"⟩) (fun _ => .error "unused") =
      .error (.http 404 "missing") :=
  (create_label_201_exact ⟨"http://s"⟩ "org" "nm" none _ _ _ "body"
    ⟨404, .ok "missing"⟩ "missing" rfl rfl rfl).2.1 (by decide)

/-- C6: in `create_label`, `update_label` and `create_task`, a failing body
serialization is returned as a serializing error, and the result does not
depend on the network at all (the statement holds for every `send`), so the
send step is never reached. -/
theorem body_serialization_short_circuits :
    (∀ (c : Client) (org_id name : String)
        (properties : Option (List (String × String)))
        (ser : LabelCreateRequest → Except String String)
        (send : String → String → Except String HttpResponse)
        (parse : String → Except String LabelResponse) (e : String),
      ser ⟨org_id, name, properties⟩ = .error e →
      create_label c org_id name properties ser send parse =
        .error (.serializing e)) ∧
    (∀ (c : Client) (name : Option String)
        (properties : Option (List (String × String))) (label_id : String)
        (ser : LabelUpdate → Except String String)
        (send : String → String → Except String HttpResponse)
        (parse : String → Except String LabelResponse) (e : String),
      ser ⟨name, properties⟩ = .error e →
      update_label c name properties label_id ser send parse =
        .error (.serializing e)) ∧
    (∀ (c : Client) (request : CreateTaskRequest)
        (ser : CreateTaskRequest → Except String String)
        (send : String → String → Except String HttpResponse) (e : String),
      ser request = .error e →
      create_task c request ser send = .error (.serializing e)) := by
  refine ⟨?_, ?_, ?_⟩
  · intro c org_id name properties ser send parse e hser
    simp [create_label, hser]
  · intro c name properties label_id ser send parse e hser
    simp [update_label, hser]
  · intro c request ser send e hser
    simp [create_task, hser]

/-- Witness for C6: with a failing serializer, all three body-sending
operations return the serializing error even though the given `send` would
answer successfully. -/
theorem body_serialization_short_circuits_witness :
    create_label ⟨"u"⟩ "o" "n" none (fun _ => .error "enc")
        (fun _ _ => .ok ⟨201, .ok ""⟩) (fun _ => .error "p") =
      .error (.serializing "enc") ∧
    update_label ⟨"u"⟩ none none "id" (fun _ => .error "enc2")
        (fun _ _ => .ok ⟨200, .ok ""⟩) (fun _ => .error "p") =
      .error (.serializing "enc2") ∧
    create_task ⟨"u"⟩ (CreateTaskRequest.new "f") (fun _ => .error "enc3")
        (fun _ _ => .ok ⟨200, .ok ""⟩) =
      .error (.serializing "enc3") :=
  ⟨body_serialization_short_circuits.1 _ _ _ _ _ _ _ _ rfl,
   body_serialization_short_circuits.2.1 _ _ _ _ _ _ _ _ rfl,
   body_serialization_short_circuits.2.2 _ _ _ _ _ rfl⟩

/-- C10: `create_task` returns the unit value on any success-class (2xx)
status, for every possible body-read outcome of the response — including an
unreadable or non-JSON body — so the success response body is never read or
deserialized. -/
theorem create_task_ignores_success_body (c : Client)
    (request : CreateTaskRequest)
    (ser : CreateTaskRequest → Except String String)
    (send : String → String → Except String HttpResponse)
    (b : String) (resp : HttpResponse)
    (hser : ser request = .ok b)
    (hsend : send (c.url ++ "/api/v2/tasks") b = .ok resp)
    (hst : resp.status.is_success = true) :
    create_task c request ser send = .ok () := by
  simp only [create_task, hser, hsend]
  simp [hst]

/-- Witness for C10: a 201 response whose body cannot even be read still
yields success. -/
theorem create_task_ignores_success_body_witness :
    create_task ⟨"u"⟩ (CreateTaskRequest.new "f") (fun _ => .ok "x")
      (fun _ _ => .ok ⟨201, .error "body never read"⟩) = .ok () :=
  create_task_ignores_success_body ⟨"u"⟩ (CreateTaskRequest.new "f") _ _ "x"
    ⟨201, .error "body never read"⟩ rfl rfl (by decide)

/-- C1 counterexample: a 201 response with a parseable body makes
`list_tasks` return a deserialized success, not an HTTP error — the code
accepts the whole 2xx class (`is_success`), not only 200 as claimed. -/
theorem list_tasks_accepts_201 :
    list_tasks ⟨"http://s"⟩ noFilters (fun _ => .ok ⟨[]⟩)
      (fun _ => .ok ⟨201, .ok "body"⟩) = .ok ⟨[]⟩ := rfl

/-- C1 (amended): `list_tasks` returns a deserialized `Tasks` result exactly
when the response status is in the success class (2xx) and the body parses;
any non-2xx status yields an HTTP error carrying that status and the body
text. -/
theorem list_tasks_success_class (c : Client) (r : ListTasksRequest)
    (parse : String → Except String Tasks)
    (send : String → Except String HttpResponse)
    (resp : HttpResponse) (t : String)
    (hsend : send (listTasksUrl c r) = .ok resp)
    (htext : resp.text = .ok t) :
    (resp.status.is_success = false →
      list_tasks c r parse send = .error (.http resp.status t)) ∧
    (∀ v, resp.status.is_success = true → parse t = .ok v →
      list_tasks c r parse send = .ok v) ∧
    (∀ v, list_tasks c r parse send = .ok v →
      resp.status.is_success = true ∧ parse t = .ok v) := by
  simp only [list_tasks, hsend]
  cases h : resp.status.is_success
  · simp [h, htext]
  · cases hp : parse t <;> simp [h, responseJson, htext, hp]

/-- Witness for the amended C1: a 500 response with body "oops" makes
`list_tasks` fail with exactly that HTTP error. -/
theorem list_tasks_success_class_witness :
    list_tasks ⟨"http://s"⟩ noFilters (fun _ => .error "unused")
      (fun _ => .ok ⟨500, .ok "oops"⟩) = .error (.http 500 "oops") :=
  (list_tasks_success_class ⟨"http://s"⟩ noFilters _ _ ⟨500, .ok "oops"⟩
    "oops" rfl rfl).1 (by decide)

/-- C5 counterexample: a transport failure and a deserialization failure (a
200 response whose body does not parse) produce the very same
`RequestError` value — both are wrapped by `ReqwestProcessingSnafu` — so the
caller cannot distinguish the two kinds. -/
theorem deserialization_transport_same_error :
    get_labels ⟨"http://s"⟩ none (fun _ => .ok ⟨[]⟩) (fun _ _ => .error "boom") =
      get_labels ⟨"http://s"⟩ none (fun _ => .error "boom")
        (fun _ _ => .ok ⟨200, .ok "garbage"⟩) ∧
    get_labels ⟨"http://s"⟩ none (fun _ => .ok ⟨[]⟩) (fun _ _ => .error "boom") =
      .error (.reqwestProcessing "boom") :=
  ⟨rfl, rfl⟩

/-- C5 (amended): the operations return a typed `RequestError` whose
constructors distinguish three kinds — HTTP error (status plus body text),
body-serialization failure, and reqwest-processing failure — but a
deserialization failure is reported under the same reqwest-processing
constructor as a transport failure. -/
theorem request_error_three_kinds (c : Client) (org_id : Option String)
    (parse : String → Except String LabelsResponse)
    (send : String → List (String × String) → Except String HttpResponse) :
    (∀ e, send (c.url ++ "/api/v2/labels") (labelsQuery org_id) = .error e →
      get_labels c org_id parse send = .error (.reqwestProcessing e)) ∧
    (∀ resp t e, send (c.url ++ "/api/v2/labels") (labelsQuery org_id) = .ok resp →
      resp.status = 200 → resp.text = .ok t → parse t = .error e →
      get_labels c org_id parse send = .error (.reqwestProcessing e)) ∧
    (∀ resp t, send (c.url ++ "/api/v2/labels") (labelsQuery org_id) = .ok resp →
      resp.status ≠ 200 → resp.text = .ok t →
      get_labels c org_id parse send = .error (.http resp.status t)) ∧
    (∀ s t e, RequestError.http s t ≠ .reqwestProcessing e) ∧
    (∀ s t e, RequestError.http s t ≠ .serializing e) ∧
    (∀ e e', RequestError.serializing e ≠ .reqwestProcessing e') := by
  refine ⟨?_, ?_, ?_, ?_, ?_, ?_⟩
  · intro e hsend
    simp [get_labels, hsend]
  · intro resp t e hsend hst htext hp
    simp [get_labels, hsend, hst, responseJson, htext, hp]
  · intro resp t hsend hst htext
    simp [get_labels, hsend, hst, htext]
  · intro s t e h
    exact RequestError.noConfusion h
  · intro s t e h
    exact RequestError.noConfusion h
  · intro e e' h
    exact RequestError.noConfusion h

/-- Witness for the amended C5: a 200 response whose body fails to parse
surfaces as a reqwest-processing error. -/
theorem request_error_three_kinds_witness :
    get_labels ⟨"http://s"⟩ none (fun _ => .error "bad json")
      (fun _ _ => .ok ⟨200, .ok "x"⟩) = .error (.reqwestProcessing "bad json") :=
  (request_error_three_kinds ⟨"http://s"⟩ none _ _).2.1 ⟨200, .ok "x"⟩ "x"
    "bad json" rfl rfl rfl rfl

/-- C7: serializing a `LabelUpdate` with both optional fields absent
produces exactly the empty JSON object. -/
theorem update_label_empty_body : labelUpdateToJson ⟨none, none⟩ = "\x7b\x7d" :=
  rfl

/-- C9: `serde_qs` serialization of a `ListTasksRequest` always succeeds
(the struct flattens to its query pairs; the serializer's error case only
concerns top-level primitives), so the `unwrap` in `list_tasks` never
panics and returns the rendered query. -/
theorem listTasks_query_serialization_total (r : ListTasksRequest) :
    listTasksQsE r = .ok (renderQuery (listTasksPairs r)) ∧
    (∀ e, listTasksQsE r ≠ .error e) ∧
    listTasksQs r = renderQuery (listTasksPairs r) := by
  refine ⟨rfl, ?_, rfl⟩
  intro e h
  simp [listTasksQsE, qsToStringE] at h

/-- Witness for C9: on the empty request the serializer succeeds with the
empty query string. -/
theorem listTasks_query_serialization_total_witness :
    listTasksQsE noFilters = .ok "" :=
  (listTasks_query_serialization_total noFilters).1

/-- C4: the `list_tasks` query string serializes only the present optional
filter fields — each external key appears exactly when its field is `some`,
`org_id` is rendered under `orgID` and `type_` under `type` (the internal
names never appear) — and with every filter absent the query string is
empty and the URL is the bare path with no `?` appended. -/
theorem listTasks_query_only_present_fields (c : Client) (r : ListTasksRequest) :
    (listTasksQs noFilters = "" ∧
      listTasksUrl c noFilters = c.url ++ "/api/v2/tasks") ∧
    ('?' ∉ c.url.data → '?' ∉ (listTasksUrl c noFilters).data) ∧
    (("after" ∈ listTasksKeys r ↔ r.after.isSome) ∧
     ("limit" ∈ listTasksKeys r ↔ r.limit.isSome) ∧
     ("name" ∈ listTasksKeys r ↔ r.name.isSome) ∧
     ("org" ∈ listTasksKeys r ↔ r.org.isSome) ∧
     ("orgID" ∈ listTasksKeys r ↔ r.org_id.isSome) ∧
     ("status" ∈ listTasksKeys r ↔ r.status.isSome) ∧
     ("type" ∈ listTasksKeys r ↔ r.type_.isSome) ∧
     ("user" ∈ listTasksKeys r ↔ r.user.isSome)) ∧
    ("org_id" ∉ listTasksKeys r ∧ "type_" ∉ listTasksKeys r) ∧
    (∀ v, r.org_id = some v → ("orgID", qsEscape v) ∈ listTasksPairs r) ∧
    (∀ v, r.type_ = some v → ("type", qsEscape v.render) ∈ listTasksPairs r) := by
  have hqs : listTasksQs noFilters = "" := rfl
  have hurl : listTasksUrl c noFilters = c.url ++ "/api/v2/tasks" := by
    simp [listTasksUrl, hqs]
  refine ⟨⟨hqs, hurl⟩, ?_, ?_, ?_, ?_, ?_⟩
  · intro hu
    rw [hurl, String.data_append]
    simp only [List.mem_append]
    rintro (h | h)
    · exact hu h
    · revert h
      decide
  · simp only [listTasksKeys, listTasksPairs, List.map_append, List.mem_append,
      optField_keys, Option.isSome_map]
    simp
  · constructor <;>
    · simp only [listTasksKeys, listTasksPairs, List.map_append,
        List.mem_append, optField_keys, Option.isSome_map]
      simp
  · intro v hv
    simp [listTasksPairs, hv, optField, List.mem_append]
  · intro v hv
    simp [listTasksPairs, hv, optField, List.mem_append]

/-- Witness for C4: with only the org-id filter set, the `orgID` pair is in
the query pairs; and the filterless URL of a `?`-free base URL contains no
`?`. -/
theorem listTasks_query_only_present_fields_witness :
    ("orgID", qsEscape "some-org") ∈
      listTasksPairs ⟨none, none, none, none, some "some-org", none, none, none⟩ ∧
    '?' ∉ (listTasksUrl ⟨"http://s"⟩ noFilters).data :=
  ⟨(listTasks_query_only_present_fields ⟨"http://s"⟩
      ⟨none, none, none, none, some "some-org", none, none, none⟩).2.2.2.2.1
      "some-org" rfl,
   (listTasks_query_only_present_fields ⟨"http://s"⟩ noFilters).2.1 (by decide)⟩

/-- C8: serializing a `CreateTaskRequest` emits every field when all
optional fields are present (in declaration order, with `org_id` under the
external key `orgID`); an absent optional field's key is omitted entirely
and no value is ever the literal `null`. -/
theorem createTaskRequest_serialization (r : CreateTaskRequest) :
    (∀ f d o i s, (createTaskRequestFields ⟨f, some d, some o, some i, some s⟩).map
        Prod.fst = ["flux", "description", "org", "orgID", "status"]) ∧
    (r.description = none →
      "description" ∉ (createTaskRequestFields r).map Prod.fst) ∧
    (r.org = none → "org" ∉ (createTaskRequestFields r).map Prod.fst) ∧
    (r.org_id = none → "orgID" ∉ (createTaskRequestFields r).map Prod.fst) ∧
    (r.status = none → "status" ∉ (createTaskRequestFields r).map Prod.fst) ∧
    (∀ kv ∈ createTaskRequestFields r, kv.2 ≠ "null") ∧
    (∀ v, r.org_id = some v → ("orgID", jsonString v) ∈ createTaskRequestFields r) ∧
    ("org_id" ∉ (createTaskRequestFields r).map Prod.fst) := by
  refine ⟨?_, ?_, ?_, ?_, ?_, ?_, ?_, ?_⟩
  · intro f d o i s
    rfl
  · intro h
    simp [createTaskRequestFields, h, List.map_append, List.mem_append,
      mem_optField_pair]
  · intro h
    simp [createTaskRequestFields, h, List.map_append, List.mem_append,
      mem_optField_pair]
  · intro h
    simp [createTaskRequestFields, h, List.map_append, List.mem_append,
      mem_optField_pair]
  · intro h
    simp [createTaskRequestFields, h, List.map_append, List.mem_append,
      mem_optField_pair]
  · intro kv hkv
    obtain ⟨s, hs⟩ := createTaskRequestFields_value_shape r kv hkv
    rw [hs]
    exact jsonString_ne_null s
  · intro v hv
    simp [createTaskRequestFields, hv, optField, List.mem_append]
  · simp [createTaskRequestFields, List.map_append, List.mem_append,
      mem_optField_pair]

/-- Witness for C8: the minimal request serializes only the `flux` key, and
a request with only `org_id` set carries the `orgID` pair. -/
theorem createTaskRequest_serialization_witness :
    "description" ∉ (createTaskRequestFields (CreateTaskRequest.new "f")).map
      Prod.fst ∧
    ("orgID", jsonString "oid") ∈
      createTaskRequestFields ⟨"f", none, none, some "oid", none⟩ :=
  ⟨(createTaskRequest_serialization (CreateTaskRequest.new "f")).2.1 rfl,
   (createTaskRequest_serialization
      ⟨"f", none, none, some "oid", none⟩).2.2.2.2.2.2.1 "oid" rfl⟩

end Influxdb2
